import Mathlib

/-!
Verification of the adapter-core session state machine and task-queue worker
of the matrix plugin-adapter repository (`src/adapter/generic/adapter_core.py`,
`src/adapter/generic/qthread.py`, `src/adapter/generic/handler.py`).

The Python classes are shallowly embedded: the mutable `AdapterCore` object
becomes a record passed and returned explicitly, side effects on the broker
connection and the SUT handler become an explicit event trace, and the two
`QThread` queues become list-valued fields of that record.
-/

namespace AdapterProof

/-- The `State` enumeration from `adapter_core.py` (lines 16-25). -/
inductive State where
  | DISCONNECTED
  | CONNECTED
  | ANNOUNCED
  | CONFIGURED
  | READY
  | ERROR
deriving DecidableEq, Repr

/-- Label sort, mirroring `label_pb2.Label.LabelType` as used by the core
(`STIMULUS` versus the others; the code only ever tests against STIMULUS and
RESPONSE). -/
inductive LabelType where
  | STIMULUS
  | RESPONSE
deriving DecidableEq, Repr

/-- The fields of `label_pb2.Label` the core reads: the sort (`.type`) and the
name (`.label`). -/
structure Label where
  type : LabelType
  label : String
deriving DecidableEq, Repr

/-- One item of a configuration (`ConfigurationItem`): the core treats the
payload opaquely, so name/value strings suffice. -/
structure ConfigurationItem where
  name : String
  value : String
deriving DecidableEq, Repr

/-- A configuration is an ordered sequence of items. -/
def Configuration := List ConfigurationItem
deriving DecidableEq

/-- Outbound wire messages built by the core (`message_pb2.Message`, one
variant set per instance). -/
inductive Message where
  | error (message : String)
  | label (l : Label)
  | ready
  | announcement (name : String) (labels : List Label) (config : Configuration)
deriving DecidableEq

/-- Externally observable calls the core makes on its collaborators: the SUT
handler (`stimulate`, `start`, `stop`, `reset`, `set_configuration`) and the
broker connection (`connect`, `close`). -/
inductive Event where
  | stimulate (l : Label)
  | handlerStart
  | handlerStop
  | handlerReset
  | setConfiguration (c : Configuration)
  | connect
  | close (reason : String)
deriving DecidableEq

/-- The SUT handler (`handler.py`). The abstract methods' behaviour is part of
the handler value: `startResult`/`stimulateResult`/`resetResult` record whether
the corresponding call raises (`Except.error`) and, for `reset`, the returned
failure reason. `configuration` is the mutable field read by
`get_configuration` and written by `set_configuration`; `defaultConfiguration`
is the value `default_configuration()` returns. -/
structure Handler where
  supportedLabels : List Label
  defaultConfiguration : Configuration
  configuration : Configuration
  startResult : Except String Unit
  stimulateResult : Label → Except String Unit
  resetResult : Except String (Option String)

/-- Embeds `Handler.get_configuration` (handler.py lines 32-34). -/
def Handler.get_configuration (h : Handler) : Configuration :=
  h.configuration

/-- Embeds `Handler.set_configuration` (handler.py lines 28-30): plain assignment,
never raises. -/
def Handler.set_configuration (h : Handler) (c : Configuration) : Handler :=
  { h with configuration := c }

/-- The inbound `message_pb2.Message` as the dispatch layer sees it: a record
of optional fields probed with `HasField`. A well-formed wire message has
exactly one field set, but the embedding, like the Python, does not assume
that. -/
structure PbMessage where
  configuration : Option Configuration := none
  error : Option String := none
  label : Option Label := none
  reset : Option Unit := none
  ready : Option Unit := none

/-- The `AdapterCore` object state: its name, the handler, the session state
and the two QThread queues (pending outbound messages to AMP, pending raw
inbound messages). A raw inbound message is represented by its decode result
(`none` = undecodable bytes). -/
structure AdapterCore where
  name : String
  handler : Handler
  state : State
  queueToAmp : List Message
  queueHandle : List (Option PbMessage)

/-- Embeds `AdapterCore._clear_qthread_queues` (adapter_core.py lines 294-297). -/
def AdapterCore.clear_qthread_queues (core : AdapterCore) : AdapterCore :=
  { core with queueToAmp := [], queueHandle := [] }

/-- Embeds `AdapterCore._queue_message_to_amp` (adapter_core.py lines 299-309). -/
def AdapterCore.queue_message_to_amp (core : AdapterCore) (m : Message) : AdapterCore :=
  { core with queueToAmp := core.queueToAmp ++ [m] }

/-- Embeds `AdapterCore.send_error` (adapter_core.py lines 181-189): enqueue an Error
message, then close the broker connection with the same text. -/
def AdapterCore.send_error (core : AdapterCore) (message : String) :
    AdapterCore × List Event :=
  (core.queue_message_to_amp (Message.error message), [Event.close message])

/-- Embeds `AdapterCore.send_announcement` (adapter_core.py lines 217-235). -/
def AdapterCore.send_announcement (core : AdapterCore) (name : String)
    (supported_labels : List Label) (configuration : Configuration) : AdapterCore :=
  core.queue_message_to_amp (Message.announcement name supported_labels configuration)

/-- Embeds `AdapterCore.send_ready` (adapter_core.py lines 208-215): enqueue Ready,
then set the state to READY, unconditionally. -/
def AdapterCore.send_ready (core : AdapterCore) : AdapterCore :=
  let core := core.queue_message_to_amp Message.ready
  { core with state := State.READY }

/-- Embeds `AdapterCore.send_response` (adapter_core.py lines 191-206). -/
def AdapterCore.send_response (core : AdapterCore) (l : Label) :
    AdapterCore × List Event :=
  if l.type = LabelType.RESPONSE then
    (core.queue_message_to_amp (Message.label l), [])
  else
    core.send_error "Label is not of type Response"

/-- Embeds `AdapterCore.start` (adapter_core.py lines 54-63): clear both queues, then
connect only when DISCONNECTED. -/
def AdapterCore.start (core : AdapterCore) : AdapterCore × List Event :=
  let core := core.clear_qthread_queues
  if core.state = State.DISCONNECTED then
    (core, [Event.connect])
  else
    (core, [])

/-- Embeds `AdapterCore.on_open` (adapter_core.py lines 65-74). -/
def AdapterCore.on_open (core : AdapterCore) : AdapterCore × List Event :=
  if core.state = State.DISCONNECTED then
    let core := { core with state := State.CONNECTED }
    let core := core.send_announcement core.name core.handler.supportedLabels
        core.handler.get_configuration
    ({ core with state := State.ANNOUNCED }, [])
  else
    (core, [])

/-- Embeds `AdapterCore.on_close` (adapter_core.py lines 76-82): go DISCONNECTED,
clear queues, stop the handler, call `start` again (auto-reconnect). -/
def AdapterCore.on_close (core : AdapterCore) : AdapterCore × List Event :=
  let core := { core with state := State.DISCONNECTED }
  let core := core.clear_qthread_queues
  let (core, evs) := core.start
  (core, [Event.handlerStop] ++ evs)

/-- Embeds `AdapterCore.on_configuration` (adapter_core.py lines 84-114). In the
ANNOUNCED branch the state becomes CONFIGURED first; `set_configuration` is a
plain assignment and cannot raise, `handler.start` may raise, in which case
`send_error` runs. -/
def AdapterCore.on_configuration (core : AdapterCore) (pb_config : Configuration) :
    AdapterCore × List Event :=
  if core.state = State.ANNOUNCED then
    let core := { core with state := State.CONFIGURED }
    let core := { core with handler := core.handler.set_configuration pb_config }
    match core.handler.startResult with
    | Except.ok _ =>
        (core, [Event.setConfiguration pb_config, Event.handlerStart])
    | Except.error e =>
        let (core, evs) := core.send_error e
        (core, [Event.setConfiguration pb_config, Event.handlerStart] ++ evs)
  else if core.state = State.CONNECTED then
    core.send_error "Configuration received while not yet announced"
  else
    core.send_error "Configuration received while already configured"

/-- Embeds `AdapterCore.on_label` (adapter_core.py lines 116-140). In the READY
branch, a non-stimulus label triggers `send_error` but the code then falls
through to the `try` block and still calls `handler.stimulate`; a raising
`stimulate` triggers a further `send_error`. -/
def AdapterCore.on_label (core : AdapterCore) (pb_label : Label) :
    AdapterCore × List Event :=
  if core.state = State.READY then
    let (core, evs) :=
      if pb_label.type ≠ LabelType.STIMULUS then
        core.send_error "Label is not a stimulus"
      else
        (core, [])
    match core.handler.stimulateResult pb_label with
    | Except.ok _ =>
        (core, evs ++ [Event.stimulate pb_label])
    | Except.error e =>
        let (core2, evs2) := core.send_error ("error while stimulating the SUT: " ++ e)
        (core2, evs ++ [Event.stimulate pb_label] ++ evs2)
  else
    core.send_error "Label received from AMP while not ready"

/-- Embeds `AdapterCore.on_reset` (adapter_core.py lines 142-165). -/
def AdapterCore.on_reset (core : AdapterCore) : AdapterCore × List Event :=
  if core.state = State.READY then
    let core := core.clear_qthread_queues
    match core.handler.resetResult with
    | Except.ok none =>
        (core, [Event.handlerReset])
    | Except.ok (some reason) =>
        let (core2, evs2) :=
          core.send_error ("Resetting the SUT failed due to: " ++ reason)
        (core2, [Event.handlerReset] ++ evs2)
    | Except.error e =>
        let (core2, evs2) :=
          core.send_error ("Error while resetting connection to the SUT: " ++ e)
        (core2, [Event.handlerReset] ++ evs2)
  else
    core.send_error "Reset received while not ready"

/-- Embeds `AdapterCore.on_error` (adapter_core.py lines 167-179): go to ERROR, close
the connection with the received message, send nothing back. -/
def AdapterCore.on_error (core : AdapterCore) (message : String) :
    AdapterCore × List Event :=
  ({ core with state := State.ERROR }, [Event.close message])

/-- Embeds `AdapterCore._handle_message` (adapter_core.py lines 260-292): decode the
raw bytes (a failure is caught and leaves the protobuf message empty), then
dispatch on which field is set, in the code's `HasField` order. `parsed =
none` models a payload on which `ParseFromString` raises. -/
def AdapterCore.handle_message_item (core : AdapterCore)
    (parsed : Option PbMessage) : AdapterCore × List Event :=
  let pb := parsed.getD {}
  match pb.configuration with
  | some c => core.on_configuration c
  | none =>
    match pb.error with
    | some m => core.on_error m
    | none =>
      match pb.label with
      | some l => core.on_label l
      | none =>
        match pb.reset with
        | some _ => core.on_reset
        | none => (core, [])

/-- The labels passed to `handler.stimulate` in an event trace. -/
def stimulations (evs : List Event) : List Label :=
  evs.filterMap fun e =>
    match e with
    | Event.stimulate l => some l
    | _ => none

/-- The handler invocations (as opposed to broker-connection calls) in an
event trace. -/
def handlerEvents (evs : List Event) : List Event :=
  evs.filter fun e =>
    match e with
    | Event.stimulate _ => true
    | Event.handlerStart => true
    | Event.handlerStop => true
    | Event.handlerReset => true
    | Event.setConfiguration _ => true
    | _ => false

/-!
`QThread` (qthread.py): a FIFO queue with a dedicated worker. `pending` is the
content of `self.queue`; `current` is the item the worker has taken with
`queue.get()` but not finished processing; `processed` lists the items already
handed to `process_item`, in order. The worker loop body is split into the two
observable steps of taking an item and finishing its processing, so that
`clear_queue` can be interleaved between them as in the threaded code. -/
structure QThread (α : Type) where
  pending : List α
  current : Option α
  processed : List α
deriving DecidableEq, Repr

/-- Embeds `QThread.put` (qthread.py lines 26-28). -/
def QThread.put (q : QThread α) (x : α) : QThread α :=
  { q with pending := q.pending ++ [x] }

/-- Embeds `QThread.clear_queue` (qthread.py lines 30-34): repeatedly `get` until the
queue is empty, discarding every item; the worker's current item is untouched. -/
def QThread.clear_queue (q : QThread α) : QThread α :=
  { q with pending := [] }

/-- The worker's `queue.get()` (qthread.py line 38): take the head of the
queue when idle; blocks (no-op here) when the queue is empty or an item is
still being processed. -/
def QThread.takeStep (q : QThread α) : QThread α :=
  match q.current, q.pending with
  | none, x :: rest => { q with current := some x, pending := rest }
  | _, _ => q

/-- The worker's `process_item(item); task_done()` (qthread.py lines 40-41):
finish the current item. -/
def QThread.finishStep (q : QThread α) : QThread α :=
  match q.current with
  | some x => { q with current := none, processed := q.processed ++ [x] }
  | none => q

/-- One scheduling choice for the worker loop. -/
inductive WStep where
  | take
  | finish
deriving DecidableEq, Repr

/-- Run the worker for a sequence of scheduling choices. -/
def QThread.runWorker (q : QThread α) : List WStep → QThread α
  | [] => q
  | WStep.take :: rest => q.takeStep.runWorker rest
  | WStep.finish :: rest => q.finishStep.runWorker rest

lemma QThread.runWorker_take (q : QThread α) (rest : List WStep) :
    q.runWorker (WStep.take :: rest) = q.takeStep.runWorker rest := rfl

lemma QThread.runWorker_finish (q : QThread α) (rest : List WStep) :
    q.runWorker (WStep.finish :: rest) = q.finishStep.runWorker rest := rfl

lemma QThread.runWorker_empty_pending (q : QThread α) (steps : List WStep)
    (hp : q.pending = []) :
    (q.runWorker steps).pending = [] ∧
      ∀ y ∈ (q.runWorker steps).processed,
        y ∈ q.processed ∨ q.current = some y := by
  induction steps generalizing q with
  | nil =>
    exact ⟨hp, fun y hy => Or.inl hy⟩
  | cons s rest ih =>
    cases s with
    | take =>
      have hstep : q.takeStep = q := by
        unfold QThread.takeStep
        cases hc : q.current <;> simp [hp]
      rw [QThread.runWorker_take, hstep]
      exact ih q hp
    | finish =>
      cases hc : q.current with
      | none =>
        have hstep : q.finishStep = q := by
          unfold QThread.finishStep
          simp [hc]
        rw [QThread.runWorker_finish, hstep]
        have h := ih q hp
        rw [hc] at h
        exact h
      | some x =>
        have hstep : q.finishStep =
            { q with current := none, processed := q.processed ++ [x] } := by
          unfold QThread.finishStep
          simp [hc]
        rw [QThread.runWorker_finish, hstep]
        have h := ih { q with current := none, processed := q.processed ++ [x] } hp
        constructor
        · exact h.1
        · intro y hy
          rcases h.2 y hy with hmem | hcur
          · rcases List.mem_append.mp hmem with h1 | h2
            · exact Or.inl h1
            · simp only [List.mem_singleton] at h2
              rw [h2]
              exact Or.inr rfl
          · exact absurd hcur (by simp)

/-! Concrete fixtures used to evaluate the embedding on explicit inputs. -/

/-- A handler value whose SUT calls all succeed, mirroring a well-behaved
concrete subclass of `Handler`. -/
def okHandler : Handler :=
  { supportedLabels := [{ type := LabelType.STIMULUS, label := "open" }]
    defaultConfiguration := [{ name := "url", value := "matrix.example" }]
    configuration := [{ name := "url", value := "matrix.example" }]
    startResult := Except.ok ()
    stimulateResult := fun _ => Except.ok ()
    resetResult := Except.ok none }

/-- An adapter core in a given session state, with empty queues and the
well-behaved handler. -/
def mkCore (s : State) : AdapterCore :=
  { name := "Matrix"
    handler := okHandler
    state := s
    queueToAmp := []
    queueHandle := [] }

/-- The label used against C1: sort RESPONSE, so not a stimulus. -/
def c1Label : Label := { type := LabelType.RESPONSE, label := "opened" }

/-- C1: the claim says a non-stimulus Label in state READY yields one Error and
no `handler.stimulate` call. The code enqueues the Error but then falls through
into the try block and still calls `handler.stimulate` with the non-stimulus
label (there is no early return), contradicting the claim, while the state does
remain READY. This theorem evaluates the embedded `on_label` at that failing
input. -/
theorem C1_non_stimulus_label_still_stimulates :
    ((mkCore State.READY).on_label c1Label).1.queueToAmp =
      [Message.error "Label is not a stimulus"] ∧
    stimulations ((mkCore State.READY).on_label c1Label).2 = [c1Label] ∧
    ((mkCore State.READY).on_label c1Label).1.state = State.READY :=
  ⟨rfl, rfl, rfl⟩

/-- A handler whose current configuration differs from its default
configuration, as after a `set_configuration` in a previous session. -/
def reconfiguredHandler : Handler :=
  { okHandler with
    defaultConfiguration := [{ name := "url", value := "default.example" }]
    configuration := [{ name := "url", value := "configured.example" }] }

/-- An adapter core that is DISCONNECTED while its handler carries a
non-default configuration (reachable: configure, then lose the connection). -/
def reconfiguredCore : AdapterCore :=
  { name := "Matrix"
    handler := reconfiguredHandler
    state := State.DISCONNECTED
    queueToAmp := []
    queueHandle := [] }

/-- C2 counterexample: `on_open` builds the Announcement from
`handler.get_configuration()` (the current configuration), not from the
handler's default configuration. On a core whose handler configuration differs
from its default, the single enqueued Announcement carries the current
configuration, which is not the default one the claim names. -/
theorem C2_announcement_carries_current_configuration :
    reconfiguredCore.on_open.1.queueToAmp =
      [Message.announcement "Matrix" reconfiguredHandler.supportedLabels
        [{ name := "url", value := "configured.example" }]] ∧
    reconfiguredHandler.defaultConfiguration ≠
      [{ name := "url", value := "configured.example" }] := by
  refine ⟨rfl, ?_⟩
  decide

/-- C2 amended: when `on_open` fires in state DISCONNECTED, exactly one
Announcement is enqueued, carrying the adapter name, the handler's supported
labels and the handler's current configuration (`get_configuration`), and the
state becomes ANNOUNCED. -/
theorem C2_on_open_announces (core : AdapterCore)
    (h : core.state = State.DISCONNECTED) :
    core.on_open.1.queueToAmp =
      core.queueToAmp ++ [Message.announcement core.name
        core.handler.supportedLabels core.handler.get_configuration] ∧
    core.on_open.1.state = State.ANNOUNCED ∧
    core.on_open.2 = [] := by
  unfold AdapterCore.on_open
  rw [if_pos h]
  exact ⟨rfl, rfl, rfl⟩

/-- Witness for C2 at a concrete disconnected core. -/
theorem C2_on_open_announces_witness :
    (mkCore State.DISCONNECTED).on_open.1.state = State.ANNOUNCED ∧
    (mkCore State.DISCONNECTED).on_open.1.queueToAmp =
      [Message.announcement "Matrix" okHandler.supportedLabels
        okHandler.configuration] := by
  have h := C2_on_open_announces (mkCore State.DISCONNECTED) rfl
  exact ⟨h.2.1, h.1⟩

/-- C3: a raw payload that fails to decode (`parsed = none`) leaves the core
unchanged: no state-machine callback runs, nothing is enqueued, the state and
both queues are untouched, and no collaborator call is made. -/
theorem C3_decode_failure_is_dropped (core : AdapterCore) :
    core.handle_message_item none = (core, []) :=
  rfl

/-- C4: a Label of sort Stimulus in state READY leads to exactly one
`handler.stimulate` call with that label (whether or not the call raises); in
any other state, no handler call is made and exactly one Error message is
enqueued. -/
theorem C4_label_dispatch (core : AdapterCore) (lbl : Label) :
    (core.state = State.READY → lbl.type = LabelType.STIMULUS →
      stimulations (core.on_label lbl).2 = [lbl]) ∧
    (core.state ≠ State.READY →
      handlerEvents (core.on_label lbl).2 = [] ∧
      (core.on_label lbl).1.queueToAmp =
        core.queueToAmp ++ [Message.error "Label received from AMP while not ready"]) := by
  constructor
  · intro hs ht
    unfold AdapterCore.on_label
    rw [if_pos hs, if_neg (by simp [ht])]
    cases hres : core.handler.stimulateResult lbl <;>
      simp [hres, stimulations, AdapterCore.send_error, AdapterCore.queue_message_to_amp]
  · intro hs
    unfold AdapterCore.on_label
    rw [if_neg hs]
    exact ⟨rfl, rfl⟩

/-- Witness for C4: a concrete stimulus in READY is stimulated once; a concrete
label in CONNECTED reaches no handler call and enqueues the not-ready Error. -/
theorem C4_label_dispatch_witness :
    stimulations ((mkCore State.READY).on_label
      { type := LabelType.STIMULUS, label := "open" }).2 =
      [{ type := LabelType.STIMULUS, label := "open" }] ∧
    handlerEvents ((mkCore State.CONNECTED).on_label
      { type := LabelType.STIMULUS, label := "open" }).2 = [] := by
  have h1 := C4_label_dispatch (mkCore State.READY)
    { type := LabelType.STIMULUS, label := "open" }
  have h2 := C4_label_dispatch (mkCore State.CONNECTED)
    { type := LabelType.STIMULUS, label := "open" }
  exact ⟨h1.1 rfl rfl, (h2.2 (by decide)).1⟩

/-- C5: a Configuration in state ANNOUNCED leads to `handler.set_configuration`
with the decoded configuration followed by `handler.start`, and the state
becomes CONFIGURED; in the states CONNECTED, CONFIGURED, READY and ERROR it
yields exactly one Error message and no state change. -/
theorem C5_configuration_dispatch (core : AdapterCore) (cfg : Configuration) :
    (core.state = State.ANNOUNCED →
      ((core.on_configuration cfg).2.take 2 =
        [Event.setConfiguration cfg, Event.handlerStart] ∧
      (core.on_configuration cfg).1.state = State.CONFIGURED ∧
      (core.on_configuration cfg).1.handler.configuration = cfg)) ∧
    ((core.state = State.CONNECTED ∨ core.state = State.CONFIGURED ∨
        core.state = State.READY ∨ core.state = State.ERROR) →
      ((core.on_configuration cfg).1.state = core.state ∧
      ∃ msg, (core.on_configuration cfg).1.queueToAmp =
        core.queueToAmp ++ [Message.error msg])) := by
  constructor
  · intro hs
    unfold AdapterCore.on_configuration
    rw [if_pos hs]
    cases hr : core.handler.startResult <;>
      simp [AdapterCore.send_error, AdapterCore.queue_message_to_amp,
        Handler.set_configuration, hr]
  · intro hs
    have hne : core.state ≠ State.ANNOUNCED := by
      rcases hs with h | h | h | h <;> rw [h] <;> decide
    unfold AdapterCore.on_configuration
    rw [if_neg hne]
    by_cases hc : core.state = State.CONNECTED
    · rw [if_pos hc]
      exact ⟨rfl, _, rfl⟩
    · rw [if_neg hc]
      exact ⟨rfl, _, rfl⟩

/-- Witness for C5 at concrete ANNOUNCED and READY cores. -/
theorem C5_configuration_dispatch_witness :
    ((mkCore State.ANNOUNCED).on_configuration
      [{ name := "url", value := "other.example" }]).1.state = State.CONFIGURED ∧
    ((mkCore State.READY).on_configuration
      [{ name := "url", value := "other.example" }]).1.state = State.READY := by
  have h1 := C5_configuration_dispatch (mkCore State.ANNOUNCED)
    [{ name := "url", value := "other.example" }]
  have h2 := C5_configuration_dispatch (mkCore State.READY)
    [{ name := "url", value := "other.example" }]
  exact ⟨(h1.1 rfl).2.1, (h2.2 (Or.inr (Or.inr (Or.inl rfl)))).1⟩

/-- C6: when the transport close callback fires in a connected state, both
queues end up empty, `handler.stop` is called exactly once, the state becomes
DISCONNECTED, and the broker connect call is issued again automatically. -/
theorem C6_on_close_reconnects (core : AdapterCore)
    (_h : core.state ≠ State.DISCONNECTED) :
    core.on_close.1.queueToAmp = [] ∧
    core.on_close.1.queueHandle = [] ∧
    core.on_close.1.state = State.DISCONNECTED ∧
    core.on_close.2 = [Event.handlerStop, Event.connect] :=
  ⟨rfl, rfl, rfl, rfl⟩

/-- Witness for C6 at a concrete READY core. -/
theorem C6_on_close_reconnects_witness :
    (mkCore State.READY).on_close.1.state = State.DISCONNECTED ∧
    (mkCore State.READY).on_close.2 = [Event.handlerStop, Event.connect] := by
  have h := C6_on_close_reconnects (mkCore State.READY) (by decide)
  exact ⟨h.2.2.1, h.2.2.2⟩

/-- C7: `send_error` enqueues exactly one Error message carrying the given
text and then closes the broker connection with that same text as the reason,
in every state. -/
theorem C7_send_error_enqueues_then_closes (core : AdapterCore) (text : String) :
    (core.send_error text).1.queueToAmp =
      core.queueToAmp ++ [Message.error text] ∧
    (core.send_error text).1.state = core.state ∧
    (core.send_error text).2 = [Event.close text] :=
  ⟨rfl, rfl, rfl⟩

/-- C8: `clear_queue` leaves the pending queue empty without touching the item
the worker already took or the processing history; afterwards, no matter how
the worker is scheduled, any processed item either had been processed before
or was the one already taken — none of the cleared pending items is ever
processed; and an item already taken before the clear finishes processing
normally. -/
theorem C8_clear_queue_discards_pending {α : Type} (q : QThread α)
    (steps : List WStep) (x : α) :
    q.clear_queue.pending = [] ∧
    q.clear_queue.current = q.current ∧
    q.clear_queue.processed = q.processed ∧
    (∀ y ∈ (q.clear_queue.runWorker steps).processed,
      y ∈ q.processed ∨ q.current = some y) ∧
    (q.current = some x →
      q.clear_queue.finishStep.processed = q.processed ++ [x] ∧
      q.clear_queue.finishStep.current = none) := by
  refine ⟨rfl, rfl, rfl, ?_, ?_⟩
  · exact (QThread.runWorker_empty_pending q.clear_queue steps rfl).2
  · intro hc
    unfold QThread.clear_queue QThread.finishStep
    simp [hc]

/-- Witness for C8 on a concrete queue with three pending items, a taken item,
and one already-processed item. -/
theorem C8_clear_queue_discards_pending_witness :
    (QThread.clear_queue ⟨[1, 2, 3], some 9, [0]⟩).pending = ([] : List ℕ) ∧
    (QThread.finishStep (QThread.clear_queue ⟨[1, 2, 3], some 9, [0]⟩)).processed
      = [0, 9] := by
  have h := C8_clear_queue_discards_pending (⟨[1, 2, 3], some 9, [0]⟩ : QThread ℕ)
    [WStep.take, WStep.finish] 9
  exact ⟨h.1, (h.2.2.2.2 rfl).1⟩

/-- C9: `start` first clears both task queues in every state, leaves the state
and handler untouched, and calls the broker connect exactly when the state is
DISCONNECTED. -/
theorem C9_start_clears_queues_first (core : AdapterCore) :
    core.start.1.queueToAmp = [] ∧
    core.start.1.queueHandle = [] ∧
    core.start.1.state = core.state ∧
    core.start.1.handler = core.handler ∧
    core.start.2 =
      (if core.state = State.DISCONNECTED then [Event.connect] else []) := by
  unfold AdapterCore.start AdapterCore.clear_qthread_queues
  by_cases h : core.state = State.DISCONNECTED <;> simp [h]

/-- C10: `send_ready` has no state guard: from any core it enqueues exactly
one Ready message and unconditionally sets the state to READY, leaving the
handler and the inbound queue untouched. -/
theorem C10_send_ready_unguarded (core : AdapterCore) :
    core.send_ready.queueToAmp = core.queueToAmp ++ [Message.ready] ∧
    core.send_ready.state = State.READY ∧
    core.send_ready.handler = core.handler ∧
    core.send_ready.queueHandle = core.queueHandle :=
  ⟨rfl, rfl, rfl, rfl⟩

end AdapterProof
